import Mathlib

/-!
A verification development for the static-site builder in `src/builder`
(`resources.py` and `build.py`).  The Python code is shallowly embedded:
pure path arithmetic and the resource-resolution logic become Lean
functions, and the effectful build / sync procedures become functions
that return the list of filesystem operations they perform together
with the resulting filesystem node.  External collaborators that are
not part of `src/builder` (the `Document` abstraction, `util.sluggify`,
`util.get_slug_and_optional_date`) are modelled from the specification,
as marked in their doc comments.
-/

namespace Builder

/-! ## Python path arithmetic

`pathlib.PurePath` values are embedded as an absoluteness flag plus the
list of components (`Path.parts` without the root).  `pyStem` and
`pySuffix` follow `PurePath.stem` / `PurePath.suffix`: the suffix is
`name[i:]` for `i` the index of the last dot, provided `0 < i < len - 1`,
and empty otherwise. -/

/-- Index of the last occurrence of `c` in `cs` (Python `str.rfind`). -/
def rfindIdx (cs : List Char) (c : Char) : Option Nat :=
  match cs.reverse.findIdx? (fun x => x == c) with
  | none => none
  | some j => some (cs.length - 1 - j)

/-- `PurePath.stem` on a final path component. -/
def pyStemChars (cs : List Char) : List Char :=
  match rfindIdx cs '.' with
  | some i => if 0 < i && i + 1 < cs.length then cs.take i else cs
  | none => cs

/-- `PurePath.suffix` on a final path component. -/
def pySuffixChars (cs : List Char) : List Char :=
  match rfindIdx cs '.' with
  | some i => if 0 < i && i + 1 < cs.length then cs.drop i else []
  | none => []

def pyStem (name : String) : String := String.mk (pyStemChars name.toList)

def pySuffix (name : String) : String := String.mk (pySuffixChars name.toList)

/-- A `pathlib` path: whether it is anchored at the root, plus its parts. -/
structure PyPath where
  absolute : Bool
  parts : List String
deriving DecidableEq, Repr

/-- Split a character list on slashes. -/
def splitSlash : List Char → List (List Char)
  | [] => [[]]
  | c :: rest =>
    if c = '/' then [] :: splitSlash rest
    else
      match splitSlash rest with
      | [] => [[c]]
      | comp :: comps => (c :: comp) :: comps

/-- Does `s` end with `suffix`? (`str.endswith`). -/
def strEndsWith (s suffix : String) : Bool :=
  List.isSuffixOf suffix.toList s.toList

/-- Parse a path string the way `pathlib.Path(s)` normalizes it:
absolute iff it starts with a slash; empty and single-dot components
are dropped. -/
def parsePyPath (s : String) : PyPath :=
  let cs := s.toList
  { absolute := cs.head? == some '/'
    parts := ((splitSlash cs).map String.mk).filter
      (fun c => decide (c ≠ "" ∧ c ≠ ".")) }

/-- The final component of a path (`Path.name`); empty for the root. -/
def lastPart (p : PyPath) : String := p.parts.getLast?.getD ""

/-- `Path.parent`. -/
def pyParent (p : PyPath) : PyPath :=
  { absolute := p.absolute, parts := p.parts.dropLast }

/-- The `/` operator on paths: an absolute right operand replaces the
left operand entirely. -/
def pyJoin (p q : PyPath) : PyPath :=
  if q.absolute then q else { absolute := p.absolute, parts := p.parts ++ q.parts }

/-- `Path.relative_to`: succeeds iff `base`'s parts are a prefix of
`p`'s parts (with matching anchors), else `ValueError` in Python. -/
def pyRelativeTo (p base : PyPath) : Option PyPath :=
  if p.absolute == base.absolute && base.parts.isPrefixOf p.parts then
    some { absolute := false, parts := p.parts.drop base.parts.length }
  else none

/-! ## Modelled helpers from the missing `util` module -/

/-- Modelled from the spec: `util.sluggify` (spec 4.1) is a missing
module's pure function producing a URL-safe identifier from a filename
stem.  Modelled as: lowercase alphanumeric characters kept, every other
character replaced by a dash, runs of dashes collapsed, and leading and
trailing dashes stripped. -/
def sluggifyChar (c : Char) : Char := if c.isAlphanum then c.toLower else '-'

def collapseDashes : List Char → List Char
  | [] => []
  | c :: rest =>
    match collapseDashes rest with
    | '-' :: tail => if c = '-' then '-' :: tail else c :: '-' :: tail
    | tail => c :: tail

def trimDashes (l : List Char) : List Char :=
  ((l.dropWhile (fun c => c == '-')).reverse.dropWhile (fun c => c == '-')).reverse

def sluggify (s : String) : String :=
  String.mk (trimDashes (collapseDashes (s.toList.map sluggifyChar)))

/-- Is `cs` a `YYYY-MM-DD` date token? -/
def isDateToken (cs : List Char) : Bool :=
  match cs with
  | [a, b, c, d, e, f, g, h, i, j] =>
    a.isDigit && b.isDigit && c.isDigit && d.isDigit && e == '-' &&
      f.isDigit && g.isDigit && h == '-' && i.isDigit && j.isDigit
  | _ => false

/-- Modelled from the spec: `util.get_slug_and_optional_date` (spec 4.2,
case c) is a missing module's function that strips an optional leading
date token from a filename stem and re-sluggifies the rest, returning
the slug together with the date token when present. -/
def get_slug_and_optional_date (stem : String) : String × Option String :=
  let cs := stem.toList
  if isDateToken (cs.take 10) && (cs.drop 10).head? == some '-' then
    (sluggify (String.mk (cs.drop 11)), some (String.mk (cs.take 10)))
  else
    (sluggify stem, none)

/-! ## `is_relative_url` (src/builder/resources.py, lines 15-17)

The Python function calls `urllib.parse.urlsplit(url, scheme='file')`
and tests `url.scheme == 'file' and not url.path.startswith('/')`.
The relevant fragment of `urlsplit` is embedded: a scheme is recognized
when the first colon is preceded by an ASCII letter followed by scheme
characters; a `//` prefix of the remainder introduces a netloc running
up to the next `/`, `?` or `#`; the path is the remainder up to the
first `#` and then up to the first `?`. -/

/-- Characters allowed in a URL scheme after the first letter. -/
def schemeChar (c : Char) : Bool :=
  c.isAlpha || c.isDigit || c == '+' || c == '-' || c == '.'

/-- The scheme-extraction step of `urlsplit`: returns the lowercased
scheme (when present) and the rest of the URL. -/
def splitScheme (cs : List Char) : Option (List Char) × List Char :=
  match cs.findIdx? (fun x => x == ':') with
  | none => (none, cs)
  | some i =>
    if 0 < i && (match cs with | c :: _ => c.isAlpha | [] => false)
        && ((cs.take i).drop 1).all schemeChar then
      (some ((cs.take i).map Char.toLower), cs.drop (i + 1))
    else
      (none, cs)

/-- The path component of the part of a URL that follows the scheme:
skip a `//`-introduced netloc, then cut at the fragment and query. -/
def urlPathOf (rest : List Char) : List Char :=
  let afterNetloc :=
    match rest with
    | '/' :: '/' :: r => r.dropWhile (fun c => c != '/' && c != '?' && c != '#')
    | _ => rest
  (afterNetloc.takeWhile (fun c => c != '#')).takeWhile (fun c => c != '?')

/-- `is_relative_url` from src/builder/resources.py: the URL parses
(with scheme defaulted to `file`) to scheme `file` and a path that does
not start with `/`. -/
def is_relative_url (url : String) : Bool :=
  let sp := splitScheme url.toList
  let schemeIsFile :=
    match sp.fst with
    | none => true
    | some s => s == ['f', 'i', 'l', 'e']
  schemeIsFile && (match urlPathOf sp.snd with
                   | '/' :: _ => false
                   | _ => true)

/-! ## The Document collaborator -/

/-- Modelled from the spec: the external `Document` collaborator
(spec section 6) from the missing `document` module.  A parsed page
with a title, a renderable body, the embedded URL references
(`rewrite_urls` maps a caller-supplied function over them, spec 4.4),
and the declared dependency references (`iter_dependencies`, each
exposing a path string, spec 4.5). -/
structure Document where
  title : String
  body : String
  urls : List String
  deps : List String
deriving DecidableEq, Repr, Inhabited

/-- `Document.rewrite_urls`: in Python this mutates the document in
place; the embedding returns the updated value. -/
def Document.rewrite_urls (d : Document) (fn : String → String) : Document :=
  { d with urls := d.urls.map fn }

/-! ## Resource (src/builder/resources.py, lines 20-104)

A `Resource` in Python reads the filesystem through `self.path`
(`iterdir`, `glob`).  The embedding snapshots the resource directory's
listing in the `entries` field (name and whether the entry is a
directory, in iteration order); `glob('*.md')` and `iterdir()` are read
from it. -/

/-- A directory entry: its final name and whether it is a directory. -/
structure Entry where
  name : String
  isDir : Bool
deriving DecidableEq, Repr

/-- `Piece` and `Project` differ only in the class variable
`DIRECTORY` (`pieces` resp. `projects`). -/
inductive CollectionKind where
  | piece
  | project
deriving DecidableEq, Repr

/-- `DIRECTORY.parts` for each variant. -/
def CollectionKind.DIRECTORY : CollectionKind → List String
  | CollectionKind.piece => ["pieces"]
  | CollectionKind.project => ["projects"]

/-- The `Resource` dataclass: `path`, `slug`, and the `_description_path`
field set by `__post_init__` from the `description_path` init-only
argument.  Note that `description_path` is an `InitVar`, so it is never
stored as an instance attribute: attribute access `self.description_path`
always hits the scanning `cached_property` of the same name, and the
explicit path survives only in `_description_path`. -/
structure Resource where
  kind : CollectionKind
  path : PyPath
  entries : List Entry
  slug : String
  explicit_description_path : Option PyPath
deriving DecidableEq, Repr

/-- `Resource.__init__` plus `__post_init__`: a falsy (`None` or empty)
slug defaults to `sluggify(self.path.stem)`; an explicit
`description_path` argument is stored in `_description_path`. -/
def Resource.make (kind : CollectionKind) (path : PyPath) (entries : List Entry)
    (slug : Option String) (description_path : Option PyPath) : Resource :=
  { kind := kind
    path := path
    entries := entries
    slug :=
      match slug with
      | some s => if s = "" then sluggify (pyStem (lastPart path)) else s
      | none => sluggify (pyStem (lastPart path))
    explicit_description_path := description_path }

/-- `Resource.from_path`: a path with suffix `.md` or `.html` builds the
resource on the parent directory with the file as explicit description
path; any other path is taken as the resource directory itself.
`entries` is the listing of the resulting resource directory. -/
def Resource.from_path (kind : CollectionKind) (p : PyPath) (entries : List Entry) : Resource :=
  if pySuffix (lastPart p) = ".md" ∨ pySuffix (lastPart p) = ".html" then
    Resource.make kind (pyParent p) entries none (some p)
  else
    Resource.make kind p entries none none

/-- `Resource.asset_paths`: every entry of the resource directory whose
suffix is not `.md`, `.html` or empty — with no check of the entry's
type. -/
def Resource.asset_paths (r : Resource) : List Entry :=
  r.entries.filter (fun e =>
    !(pySuffix e.name == ".md" || pySuffix e.name == ".html" || pySuffix e.name == ""))

/-- The names matched by `self.path.glob('*.md')`, in listing order.
(The source wraps them in a `set`; the embedding keeps listing order,
which also fixes the iteration order the source leaves to the set.) -/
def candidateNames (entries : List Entry) : List String :=
  (entries.map Entry.name).filter (fun n => strEndsWith n ".md")

/-- Minimum of a list of strings (Python `min` on paths sharing a
parent directory compares their final names). -/
def minString? : List String → Option String
  | [] => none
  | s :: rest =>
    match minString? rest with
    | none => some s
    | some t => some (if s < t then s else t)

/-- The `description_path` cached property: among the `*.md` entries,
return the single candidate (or none); otherwise prefer `index.md`,
then `{slug}.md`, then the first candidate whose date-stripped,
re-sluggified stem equals the slug, then the minimum candidate. -/
def Resource.description_path (r : Resource) : Option String :=
  let candidates := candidateNames r.entries
  if candidates.length ≤ 1 then candidates.head?
  else if candidates.contains "index.md" then some "index.md"
  else if candidates.contains (r.slug ++ ".md") then some (r.slug ++ ".md")
  else
    match candidates.find? (fun n =>
        (get_slug_and_optional_date (pyStem n)).fst == r.slug) with
    | some n => some n
    | none => minString? candidates

/-- The spec's Description Resolver algorithm (spec 4.2), written from
its words: zero or one candidate is returned as is; otherwise the first
match among (a) `index.md`, (b) `{slug}.md`, (c) the first candidate
whose date-stripped re-sluggified stem equals the slug, (d) the minimum
candidate. -/
def specDescriptionResolver (slug : String) (candidates : List String) : Option String :=
  if candidates.length ≤ 1 then candidates.head?
  else if candidates.contains "index.md" then some "index.md"
  else if candidates.contains (slug ++ ".md") then some (slug ++ ".md")
  else
    match candidates.find? (fun n =>
        (get_slug_and_optional_date (pyStem n)).fst == slug) with
    | some n => some n
    | none => minString? candidates

/-- Where the `description` cached property takes the document from:
`Document.load_file(self.description_path)` when the resolver finds a
path, `self._generate_description()` otherwise.  (Note the property
reads `self.description_path` — the scanning cached property — and not
`self._description_path`.) -/
inductive DescriptionSource where
  | loaded (name : String)
  | generated
deriving DecidableEq, Repr

/-- The branch taken by the `description` cached property. -/
def Resource.descriptionSource (r : Resource) : DescriptionSource :=
  match r.description_path with
  | none => DescriptionSource.generated
  | some p => DescriptionSource.loaded p

/-- `Resource.description_with_absolute_urls`: deep-copy the cached
description (value semantics here) and rewrite every URL with the local
function from the source: relative URLs become
`'/'.join(('', *DIRECTORY.parts, slug, url))`, others pass through. -/
def Resource.description_with_absolute_urls (r : Resource) (description : Document) : Document :=
  Document.rewrite_urls description (fun url =>
    if is_relative_url url = false then url
    else String.intercalate "/" ("" :: (r.kind.DIRECTORY ++ [r.slug, url])))

/-! ## A store of live Document objects

Python documents are heap objects: the `description` cached property
holds a reference, `copy.deepcopy` allocates a fresh object, and
`rewrite_urls` mutates an object in place.  To state the non-aliasing
property the heap is made explicit: a store of documents addressed by
allocation index. -/

structure DocStore where
  docs : List Document
deriving DecidableEq, Repr

def DocStore.get (s : DocStore) (i : Nat) : Document := s.docs.getD i default

def DocStore.set (s : DocStore) (i : Nat) (d : Document) : DocStore :=
  { docs := s.docs.set i d }

/-- Allocate a fresh document (e.g. `copy.deepcopy`), returning its id. -/
def DocStore.alloc (s : DocStore) (d : Document) : Nat × DocStore :=
  (s.docs.length, { docs := s.docs ++ [d] })

/-- The body of the `description_with_absolute_urls` cached property,
on the explicit heap: `doc = copy.deepcopy(self.description)` allocates
a fresh object holding a copy of the cached description, then
`doc.rewrite_urls(fn)` mutates that fresh object in place. -/
def Resource.description_with_absolute_urls_cached (r : Resource) (store : DocStore)
    (descId : Nat) : Nat × DocStore :=
  let alloc := store.alloc (store.get descId)
  let docId := alloc.fst
  let store1 := alloc.snd
  let store2 := store1.set docId (r.description_with_absolute_urls (store1.get docId))
  (docId, store2)

/-! ## Page Builder (src/builder/build.py, lines 32-54) -/

/-- The externally visible operations `build_resource` performs, in
order: the page render/write, and per dependency either an asset
materialization (`Asset(p).to(path)`) or a missing-asset warning. -/
inductive BuildOp where
  | writePage (dst : PyPath) (title : String)
  | copyAsset (srcName : String) (dst : PyPath)
  | warnMissing (dst : PyPath)
deriving DecidableEq, Repr

/-- The destination path an operation touches (or warns about). -/
def BuildOp.dst : BuildOp → PyPath
  | BuildOp.writePage d _ => d
  | BuildOp.copyAsset _ d => d
  | BuildOp.warnMissing d => d

/-- The asset dict `{p.stem: Asset(p) for p in resource.asset_paths}`:
looking up a stem yields the last asset whose stem matches (later
entries of a dict comprehension overwrite earlier ones). -/
def assetLookup (assetNames : List String) (stem : String) : Option String :=
  (assetNames.filter (fun n => pyStem n == stem)).getLast?

/-- Lines 46-53 of build.py: `path = Path(dependency.path)`; a relative
path is joined onto the page directory; an absolute one is used as is. -/
def resolveDependency (page_dir : PyPath) (dep : String) : PyPath :=
  let path := parsePyPath dep
  if path.absolute then path else pyJoin page_dir path

/-- The dependency loop of `build_resource`: one operation per declared
dependency — a copy when the resolved path's stem is an asset-index
key, a warning otherwise. -/
def dependencyOps (page_dir : PyPath) (assetNames : List String)
    (deps : List String) : List BuildOp :=
  deps.map (fun dep =>
    let path := resolveDependency page_dir dep
    match assetLookup assetNames (pyStem (lastPart path)) with
    | some src => BuildOp.copyAsset src path
    | none => BuildOp.warnMissing path)

/-- `page_dir = CONFIG.output_dir / resource.DIRECTORY / resource.slug`. -/
def page_dir_of (output_dir : PyPath) (r : Resource) : PyPath :=
  pyJoin (pyJoin output_dir (PyPath.mk false r.kind.DIRECTORY)) (PyPath.mk false [r.slug])

/-- `build_resource`, as the page file it returns together with the
operations it performs.  `description` is the resource's (cached)
description document. -/
def build_resource (output_dir : PyPath) (r : Resource) (description : Document) :
    PyPath × List BuildOp :=
  let page_dir := page_dir_of output_dir r
  let page_file := pyJoin page_dir (PyPath.mk false ["index.html"])
  (page_file,
    BuildOp.writePage page_file description.title
      :: dependencyOps page_dir (r.asset_paths.map Entry.name) description.deps)

/-! ## Static Sync (src/builder/build.py, lines 95-124)

The filesystem is modelled at the two paths `sync_static_path` touches:
the node at `src` (already resolved: a symlink constructor here stands
for a dangling link, for which both `is_file()` and `is_dir()` are
false) and the node at the computed destination.  Inodes witness
`samefile`/hardlink identity; a directory's whole tree of bytes is
abstracted to one string.  `linkWorks` tells whether `os.link`-based
operations succeed (they raise `OSError` across devices), `freshIno` is
the inode a copy would allocate. -/

inductive FsNode where
  | file (ino : Nat) (data : String)
  | dir (ino : Nat) (tree : String)
  | symlink (target : String)
deriving DecidableEq, Repr

inductive SyncOp where
  | link
  | copy2
  | copytreeLink
  | copytree
  | rmtree
deriving DecidableEq, Repr

def isFileNode : Option FsNode → Bool
  | some (FsNode.file _ _) => true
  | _ => false

def isDirNode : Option FsNode → Bool
  | some (FsNode.dir _ _) => true
  | _ => false

def isSymlinkNode : Option FsNode → Bool
  | some (FsNode.symlink _) => true
  | _ => false

/-- The bytes observable at a path, with inodes erased. -/
inductive FsContent where
  | file (data : String)
  | dir (tree : String)
  | symlink (target : String)
deriving DecidableEq, Repr

def fsContent : Option FsNode → Option FsContent
  | none => none
  | some (FsNode.file _ d) => some (FsContent.file d)
  | some (FsNode.dir _ t) => some (FsContent.dir t)
  | some (FsNode.symlink t) => some (FsContent.symlink t)

/-- `sync_static_path`.  Returns the destination path, the node left at
it, and the operations performed — or the exception the Python call
raises.  `dst = CONFIG.output_dir / src.relative_to(CONFIG.input_dir)`
raises `ValueError` when `src` is not under the input root, before any
filesystem access.  A `copy2` onto an existing symlink writes through
it (the entry stays a symlink, modelled as unchanged); samefile-via-
symlink is not modelled. -/
def sync_static_path (input_dir output_dir src : PyPath)
    (srcNode dstNode : Option FsNode) (linkWorks : Bool) (freshIno : Nat) :
    Except String (PyPath × Option FsNode × List SyncOp) :=
  match pyRelativeTo src input_dir with
  | none => Except.error "ValueError"
  | some rel =>
    let dst := pyJoin output_dir rel
    match srcNode with
    | some (FsNode.file ino data) =>
      match dstNode with
      | none =>
        if linkWorks then Except.ok (dst, some (FsNode.file ino data), [SyncOp.link])
        else Except.ok (dst, some (FsNode.file freshIno data), [SyncOp.copy2])
      | some (FsNode.file dino _) =>
        if dino = ino then Except.ok (dst, dstNode, [])
        else Except.ok (dst, some (FsNode.file dino data), [SyncOp.copy2])
      | some (FsNode.symlink t) =>
        Except.ok (dst, some (FsNode.symlink t), [SyncOp.copy2])
      | some (FsNode.dir _ _) => Except.error "IsADirectoryError"
    | some (FsNode.dir _ tree) =>
      match dstNode with
      | none =>
        if linkWorks then
          Except.ok (dst, some (FsNode.dir freshIno tree), [SyncOp.copytreeLink])
        else
          Except.ok (dst, some (FsNode.dir freshIno tree), [SyncOp.copytree])
      | some (FsNode.symlink t) => Except.ok (dst, some (FsNode.symlink t), [])
      | some (FsNode.dir _ _) =>
        Except.ok (dst, some (FsNode.dir freshIno tree), [SyncOp.rmtree, SyncOp.copytree])
      | some (FsNode.file _ _) => Except.error "FileExistsError"
    | _ => Except.ok (dst, dstNode, [])

end Builder

namespace Builder

/-! ## Helper lemmas -/

theorem minString?_cons_isSome (s : String) (l : List String) :
    (minString? (s :: l)).isSome := by
  cases h : minString? l <;> simp [minString?, h]


theorem specDescriptionResolver_isSome (slug a : String) (rest : List String) :
    (specDescriptionResolver slug (a :: rest)).isSome := by
  simp only [specDescriptionResolver]
  split
  · simp
  · split
    · simp
    · split
      · simp
      · split
        · simp
        · exact minString?_cons_isSome a rest

theorem specDescriptionResolver_eq_none_iff (slug : String) (l : List String) :
    specDescriptionResolver slug l = none ↔ l = [] := by
  cases l with
  | nil => simp [specDescriptionResolver]
  | cons a rest =>
    have h := specDescriptionResolver_isSome slug a rest
    constructor
    · intro he
      rw [he] at h
      simp at h
    · intro he
      simp at he

/-! ## Claims -/

/-- C1: the claim says a Resource constructed from an explicit document
file path (suffix `.md` or `.html`) loads its `description` from that
path.  The code stores the explicit path in `_description_path`, but
the `description` cached property reads `self.description_path` — the
scanning cached property — so the explicit path never governs the
resource: constructed from `page.html` the resource synthesizes a
description when the directory has no `*.md` file, and loads the
scanned `notes.md` when it has one. -/
theorem c1_explicit_description_path_is_ignored :
    (Resource.from_path CollectionKind.project
        (parsePyPath "/site/works/mywork/page.html")
        [Entry.mk "page.html" false, Entry.mk "photo.jpg" false]).explicit_description_path
      = some (parsePyPath "/site/works/mywork/page.html") ∧
    (Resource.from_path CollectionKind.project
        (parsePyPath "/site/works/mywork/page.html")
        [Entry.mk "page.html" false, Entry.mk "photo.jpg" false]).descriptionSource
      = DescriptionSource.generated ∧
    (Resource.from_path CollectionKind.project
        (parsePyPath "/site/works/mywork/page.html")
        [Entry.mk "page.html" false, Entry.mk "notes.md" false]).descriptionSource
      = DescriptionSource.loaded "notes.md" := by
  refine ⟨by decide, by decide, by decide⟩

/-- C2: the Description Resolver returns the single `*.md` candidate
(or none) for at most one candidate, and otherwise the first match in
the priority order `index.md`, `{slug}.md`, date-stripped stem match,
minimum candidate; it returns `none` exactly when there is no
candidate (and never raises — it is total); with candidates
`index.md`, `{slug}.md` and `other.md` it returns `index.md`. -/
theorem c2_description_resolver_priority (r : Resource) :
    r.description_path = specDescriptionResolver r.slug (candidateNames r.entries) ∧
    (r.description_path = none ↔ candidateNames r.entries = []) ∧
    (Resource.make CollectionKind.piece (parsePyPath "/w/work")
      [Entry.mk "index.md" false, Entry.mk "work.md" false, Entry.mk "other.md" false]
      none none).description_path = some "index.md" := by
  refine ⟨rfl, ?_, by decide⟩
  exact specDescriptionResolver_eq_none_iff r.slug (candidateNames r.entries)

/-- C3: the URL absolutizer rewrites each URL of the description to
`/{collectionKind}/{slug}/{originalUrl}` iff `is_relative_url` holds
for it (the URL parses, with scheme defaulted to `file`, to scheme
`file` and a path not starting with `/`), and leaves it unchanged
otherwise; for a Project with slug `foo`, `img.png` becomes
`/projects/foo/img.png` while `/other/page` and `http://example.com`
are unchanged. -/
theorem c3_url_absolutization (r : Resource) (d : Document) :
    (r.description_with_absolute_urls d).urls
      = d.urls.map (fun url =>
          if is_relative_url url then
            String.intercalate "/" ("" :: (r.kind.DIRECTORY ++ [r.slug, url]))
          else url) ∧
    is_relative_url "img.png" = true ∧
    is_relative_url "/other/page" = false ∧
    is_relative_url "http://example.com" = false ∧
    (Resource.description_with_absolute_urls
      (Resource.make CollectionKind.project (parsePyPath "/site/works/foo") [] none none)
      (Document.mk "t" "b" ["img.png", "/other/page", "http://example.com"] [])).urls
      = ["/projects/foo/img.png", "/other/page", "http://example.com"] := by
  refine ⟨?_, by decide, by decide, by decide, by decide⟩
  simp only [Resource.description_with_absolute_urls, Document.rewrite_urls]
  apply List.map_congr_left
  intro url _
  cases h : is_relative_url url <;> simp [h]

/-- C7 counterexample: the claim says the default slug is `sluggify` of
the directory's whole final path segment; for a directory named
`series.2021` the code instead sluggifies `Path.stem`, i.e. `series`,
which differs from `sluggify "series.2021"`. -/
theorem c7_counterexample_slug_strips_suffix :
    (Resource.make CollectionKind.project (parsePyPath "/site/works/series.2021")
        [] none none).slug = sluggify "series" ∧
    (Resource.make CollectionKind.project (parsePyPath "/site/works/series.2021")
        [] none none).slug ≠ sluggify "series.2021" := by
  refine ⟨by decide, by decide⟩

/-- C7 (amended): for a Resource constructed from a directory path
without an explicit slug, the slug is `sluggify` of the *stem* of the
directory's final path segment (the last component with its final
extension-like suffix removed). -/
theorem c7_amended_slug_from_stem (kind : CollectionKind) (p : PyPath) (entries : List Entry)
    (h1 : pySuffix (lastPart p) ≠ ".md") (h2 : pySuffix (lastPart p) ≠ ".html") :
    (Resource.from_path kind p entries).slug = sluggify (pyStem (lastPart p)) ∧
    (Resource.make kind p entries none none).slug = sluggify (pyStem (lastPart p)) := by
  constructor
  · simp [Resource.from_path, h1, h2, Resource.make]
  · rfl

theorem c7_amended_slug_from_stem_witness :
    (Resource.from_path CollectionKind.piece (parsePyPath "/w/my-work") []).slug
        = sluggify (pyStem (lastPart (parsePyPath "/w/my-work"))) ∧
    (Resource.make CollectionKind.piece (parsePyPath "/w/my-work") [] none none).slug
        = sluggify (pyStem (lastPart (parsePyPath "/w/my-work"))) :=
  c7_amended_slug_from_stem CollectionKind.piece (parsePyPath "/w/my-work") []
    (by decide) (by decide)

/-- C10: asset enumeration keeps exactly the directory entries whose
suffix is not `.md`, `.html` or empty, with no filtering on the entry's
type; in particular a subdirectory named `photos.backup` is enumerated
and its stem `photos` becomes a key of the Page Builder's asset
index. -/
theorem c10_asset_enumeration_suffix_only (r : Resource) (e : Entry) :
    (e ∈ r.asset_paths ↔
      e ∈ r.entries ∧ pySuffix e.name ≠ ".md" ∧ pySuffix e.name ≠ ".html"
        ∧ pySuffix e.name ≠ "") ∧
    Entry.mk "photos.backup" true ∈
      (Resource.make CollectionKind.piece (parsePyPath "/w/d")
        [Entry.mk "photos.backup" true, Entry.mk "index.md" false] none none).asset_paths ∧
    assetLookup ((Resource.make CollectionKind.piece (parsePyPath "/w/d")
        [Entry.mk "photos.backup" true, Entry.mk "index.md" false]
        none none).asset_paths.map Entry.name) "photos" = some "photos.backup" := by
  refine ⟨?_, by decide, by decide⟩
  simp [Resource.asset_paths, List.mem_filter, not_or, and_assoc]

end Builder

namespace Builder

theorem assetLookup_eq_none_iff (names : List String) (k : String) :
    assetLookup names k = none ↔ k ∉ names.map pyStem := by
  rw [assetLookup, List.getLast?_eq_none_iff, List.filter_eq_nil_iff]
  simp only [List.mem_map, beq_iff_eq, not_exists, not_and]

theorem assetLookup_isSome_iff (names : List String) (k : String) :
    (assetLookup names k).isSome ↔ k ∈ names.map pyStem := by
  constructor
  · intro hs
    by_contra hk
    rw [(assetLookup_eq_none_iff names k).mpr hk] at hs
    simp at hs
  · intro hk
    cases hal : assetLookup names k with
    | none => exact absurd ((assetLookup_eq_none_iff names k).mp hal) (not_not_intro hk)
    | some _ => simp

/-- C4: the Page Builder emits the page write followed by exactly one
operation per declared dependency; a dependency resolves against the
page's output directory when relative (and is kept as is when
absolute); when the resolved path's stem is a key of the asset index
the operation is a single asset materialization to the resolved
destination, otherwise it is a warning and no copy, and the remaining
dependencies are still all processed (one operation each, never
aborting). -/
theorem c4_dependency_reconciliation (output_dir : PyPath) (r : Resource) (d : Document)
    (i : Nat) (h : i < d.deps.length) :
    ((build_resource output_dir r d).snd
        = BuildOp.writePage
            (pyJoin (page_dir_of output_dir r) (PyPath.mk false ["index.html"])) d.title
          :: dependencyOps (page_dir_of output_dir r) (r.asset_paths.map Entry.name) d.deps) ∧
    (dependencyOps (page_dir_of output_dir r) (r.asset_paths.map Entry.name) d.deps).length
        = d.deps.length ∧
    (pyStem (lastPart (resolveDependency (page_dir_of output_dir r) (d.deps.getD i "")))
        ∈ (r.asset_paths.map Entry.name).map pyStem →
      ∃ src, (dependencyOps (page_dir_of output_dir r) (r.asset_paths.map Entry.name)
          d.deps)[i]?
        = some (BuildOp.copyAsset src
            (resolveDependency (page_dir_of output_dir r) (d.deps.getD i "")))) ∧
    (pyStem (lastPart (resolveDependency (page_dir_of output_dir r) (d.deps.getD i "")))
        ∉ (r.asset_paths.map Entry.name).map pyStem →
      (dependencyOps (page_dir_of output_dir r) (r.asset_paths.map Entry.name)
          d.deps)[i]?
        = some (BuildOp.warnMissing
            (resolveDependency (page_dir_of output_dir r) (d.deps.getD i "")))) := by
  have hget : d.deps[i]? = some d.deps[i] := List.getElem?_eq_getElem h
  have hgetD : d.deps.getD i "" = d.deps[i] := by
    rw [List.getD_eq_getElem?_getD, hget]
    rfl
  refine ⟨rfl, by simp [dependencyOps], ?_, ?_⟩
  · intro hmem
    rw [hgetD] at hmem ⊢
    obtain ⟨src, hsrc⟩ := Option.isSome_iff_exists.mp
      ((assetLookup_isSome_iff (r.asset_paths.map Entry.name) _).mpr hmem)
    refine ⟨src, ?_⟩
    simp [dependencyOps, List.getElem?_map, hget, hsrc]
  · intro hmem
    rw [hgetD] at hmem ⊢
    have hnone := (assetLookup_eq_none_iff (r.asset_paths.map Entry.name) _).mpr hmem
    simp [dependencyOps, List.getElem?_map, hget, hnone]

theorem c4_dependency_reconciliation_witness :
    0 < (Document.mk "t" "b" [] ["chart.png", "missing.png"]).deps.length ∧
    (pyStem (lastPart (resolveDependency
        (page_dir_of (parsePyPath "/out")
          (Resource.make CollectionKind.piece (parsePyPath "/w/d")
            [Entry.mk "chart.png" false] none none))
        ((Document.mk "t" "b" [] ["chart.png", "missing.png"]).deps.getD 0 "")))
      ∈ (((Resource.make CollectionKind.piece (parsePyPath "/w/d")
            [Entry.mk "chart.png" false] none none).asset_paths.map Entry.name).map pyStem) →
      ∃ src, (dependencyOps
          (page_dir_of (parsePyPath "/out")
            (Resource.make CollectionKind.piece (parsePyPath "/w/d")
              [Entry.mk "chart.png" false] none none))
          ((Resource.make CollectionKind.piece (parsePyPath "/w/d")
            [Entry.mk "chart.png" false] none none).asset_paths.map Entry.name)
          (Document.mk "t" "b" [] ["chart.png", "missing.png"]).deps)[0]?
        = some (BuildOp.copyAsset src (resolveDependency
            (page_dir_of (parsePyPath "/out")
              (Resource.make CollectionKind.piece (parsePyPath "/w/d")
                [Entry.mk "chart.png" false] none none))
            ((Document.mk "t" "b" [] ["chart.png", "missing.png"]).deps.getD 0 "")))) := by
  refine ⟨by decide, ?_⟩
  exact (c4_dependency_reconciliation (parsePyPath "/out")
    (Resource.make CollectionKind.piece (parsePyPath "/w/d")
      [Entry.mk "chart.png" false] none none)
    (Document.mk "t" "b" [] ["chart.png", "missing.png"]) 0 (by decide)).2.2.1

/-- C8: a declared dependency whose path is absolute is used verbatim
as the materialization destination — not re-rooted under the page
directory — while a non-absolute dependency path is joined onto the
page directory. -/
theorem c8_absolute_dependency_verbatim (output_dir : PyPath) (r : Resource) (d : Document)
    (i : Nat) (h : i < d.deps.length) :
    ∃ op : BuildOp,
      (dependencyOps (page_dir_of output_dir r) (r.asset_paths.map Entry.name)
          d.deps)[i]? = some op ∧
      ((parsePyPath (d.deps.getD i "")).absolute = true →
        op.dst = parsePyPath (d.deps.getD i "")) ∧
      ((parsePyPath (d.deps.getD i "")).absolute = false →
        op.dst = PyPath.mk (page_dir_of output_dir r).absolute
            ((page_dir_of output_dir r).parts ++ (parsePyPath (d.deps.getD i "")).parts)) := by
  have hget : d.deps[i]? = some d.deps[i] := List.getElem?_eq_getElem h
  have hgetD : d.deps.getD i "" = d.deps[i] := by
    rw [List.getD_eq_getElem?_getD, hget]
    rfl
  rw [hgetD]
  cases hal : assetLookup (r.asset_paths.map Entry.name)
      (pyStem (lastPart (resolveDependency (page_dir_of output_dir r) d.deps[i]))) with
  | none =>
    refine ⟨BuildOp.warnMissing (resolveDependency (page_dir_of output_dir r) d.deps[i]),
      ?_, ?_, ?_⟩
    · simp [dependencyOps, List.getElem?_map, hget, hal]
    · intro habs
      simp [BuildOp.dst, resolveDependency, habs]
    · intro habs
      simp [BuildOp.dst, resolveDependency, habs, pyJoin]
  | some src =>
    refine ⟨BuildOp.copyAsset src (resolveDependency (page_dir_of output_dir r) d.deps[i]),
      ?_, ?_, ?_⟩
    · simp [dependencyOps, List.getElem?_map, hget, hal]
    · intro habs
      simp [BuildOp.dst, resolveDependency, habs]
    · intro habs
      simp [BuildOp.dst, resolveDependency, habs, pyJoin]

theorem c8_absolute_dependency_verbatim_witness :
    ∃ op : BuildOp,
      (dependencyOps (page_dir_of (parsePyPath "/out")
            (Resource.make CollectionKind.piece (parsePyPath "/w/d") [] none none))
          ((Resource.make CollectionKind.piece (parsePyPath "/w/d")
            [] none none).asset_paths.map Entry.name)
          (Document.mk "t" "b" [] ["/abs/chart.png"]).deps)[0]? = some op ∧
      ((parsePyPath ((Document.mk "t" "b" [] ["/abs/chart.png"]).deps.getD 0 "")).absolute = true →
        op.dst = parsePyPath ((Document.mk "t" "b" [] ["/abs/chart.png"]).deps.getD 0 "")) ∧
      ((parsePyPath ((Document.mk "t" "b" [] ["/abs/chart.png"]).deps.getD 0 "")).absolute = false →
        op.dst = PyPath.mk (page_dir_of (parsePyPath "/out")
              (Resource.make CollectionKind.piece (parsePyPath "/w/d") [] none none)).absolute
            ((page_dir_of (parsePyPath "/out")
              (Resource.make CollectionKind.piece (parsePyPath "/w/d") [] none none)).parts
              ++ (parsePyPath ((Document.mk "t" "b" [] ["/abs/chart.png"]).deps.getD 0 "")).parts)) :=
  c8_absolute_dependency_verbatim (parsePyPath "/out")
    (Resource.make CollectionKind.piece (parsePyPath "/w/d") [] none none)
    (Document.mk "t" "b" [] ["/abs/chart.png"]) 0 (by decide)

end Builder

namespace Builder

/-- C5: computing `description_with_absolute_urls` allocates an
independent deep copy: the cached description object is unchanged by
the rewrite (same title, body and URLs), the copy lives at a different
heap id, and mutating the copy afterwards still leaves the original
untouched; the copy is derived from the cached description value (its
title and body agree with the original's). -/
theorem c5_absolutized_copy_never_aliases (r : Resource) (store : DocStore)
    (descId : Nat) (d2 : Document) (h : descId < store.docs.length) :
    ((r.description_with_absolute_urls_cached store descId).snd.get descId
        = store.get descId) ∧
    ((r.description_with_absolute_urls_cached store descId).fst ≠ descId) ∧
    (((r.description_with_absolute_urls_cached store descId).snd.set
        (r.description_with_absolute_urls_cached store descId).fst d2).get descId
        = store.get descId) ∧
    (((r.description_with_absolute_urls_cached store descId).snd.get
        (r.description_with_absolute_urls_cached store descId).fst).title
        = (store.get descId).title) ∧
    (((r.description_with_absolute_urls_cached store descId).snd.get
        (r.description_with_absolute_urls_cached store descId).fst).body
        = (store.get descId).body) := by
  have hne : store.docs.length ≠ descId := (Nat.ne_of_lt h).symm
  have horig : ∀ x : Document, (store.docs ++ [x]).getD descId default
      = store.docs.getD descId default := by
    intro x
    rw [List.getD_eq_getElem?_getD, List.getElem?_append_left h, ← List.getD_eq_getElem?_getD]
  have hsetne : ∀ (x v : Document),
      (((store.docs ++ [x]).set store.docs.length v).getD descId default)
        = store.docs.getD descId default := by
    intro x v
    rw [List.getD_eq_getElem?_getD, List.getElem?_set_ne hne,
      ← List.getD_eq_getElem?_getD, horig]
  have hsetat : ∀ (x v : Document),
      (((store.docs ++ [x]).set store.docs.length v).getD store.docs.length default) = v := by
    intro x v
    rw [List.getD_eq_getElem?_getD, List.getElem?_set_eq_of_lt v (by simp)]
    rfl
  have hback : ∀ x : Document,
      (store.docs ++ [x]).getD store.docs.length default = x := by
    intro x
    rw [List.getD_eq_getElem?_getD, List.getElem?_append_right (Nat.le_refl _)]
    simp
  refine ⟨?_, ?_, ?_, ?_, ?_⟩ <;>
    simp only [Resource.description_with_absolute_urls_cached, DocStore.alloc,
      DocStore.get, DocStore.set, List.set_set]
  · exact hsetne _ _
  · exact hne
  · exact hsetne _ _
  · rw [hsetat, hback]
    rfl
  · rw [hsetat, hback]
    rfl

theorem c5_absolutized_copy_never_aliases_witness :
    (0 < (DocStore.mk [Document.mk "t" "b" ["img.png"] []]).docs.length) ∧
    (((Resource.make CollectionKind.project (parsePyPath "/site/works/foo") [] none
        none).description_with_absolute_urls_cached
        (DocStore.mk [Document.mk "t" "b" ["img.png"] []]) 0).snd.get 0
      = (DocStore.mk [Document.mk "t" "b" ["img.png"] []]).get 0) := by
  refine ⟨by decide, ?_⟩
  exact (c5_absolutized_copy_never_aliases
    (Resource.make CollectionKind.project (parsePyPath "/site/works/foo") [] none none)
    (DocStore.mk [Document.mk "t" "b" ["img.png"] []]) 0
    (Document.mk "x" "y" [] []) (by decide)).1

end Builder

namespace Builder

/-- C6 counterexample: a directory source synced into an empty output,
then synced again unchanged: the second run removes the destination
tree (`rmtree`) before recopying, so it does perform a destructive
removal. -/
theorem c6_counterexample_second_run_removes_tree :
    sync_static_path (parsePyPath "/in") (parsePyPath "/out") (parsePyPath "/in/static")
        (some (FsNode.dir 1 "T")) none true 7
      = Except.ok (parsePyPath "/out/static", some (FsNode.dir 7 "T"),
          [SyncOp.copytreeLink]) ∧
    sync_static_path (parsePyPath "/in") (parsePyPath "/out") (parsePyPath "/in/static")
        (some (FsNode.dir 1 "T")) (some (FsNode.dir 7 "T")) true 8
      = Except.ok (parsePyPath "/out/static", some (FsNode.dir 8 "T"),
          [SyncOp.rmtree, SyncOp.copytree]) ∧
    SyncOp.rmtree ∈ [SyncOp.rmtree, SyncOp.copytree] :=
  ⟨rfl, rfl, by decide⟩


/-- C6 (amended): running Static Sync twice in a row on an unchanged
source produces byte-identical destination content; for a *file*
source the second run performs no destructive removal; for a
*directory* source the second run is a no-op exactly when the
destination is a symbolic link, and otherwise removes the destination
tree and recopies it. -/
theorem c6_second_run_behaviour (input_dir output_dir src : PyPath)
    (srcNode dst0 dst1 dst2 : Option FsNode) (lw1 lw2 : Bool) (i1 i2 : Nat)
    (p1 p2 : PyPath) (ops1 ops2 : List SyncOp)
    (h1 : sync_static_path input_dir output_dir src srcNode dst0 lw1 i1
        = Except.ok (p1, dst1, ops1))
    (h2 : sync_static_path input_dir output_dir src srcNode dst1 lw2 i2
        = Except.ok (p2, dst2, ops2)) :
    fsContent dst2 = fsContent dst1 ∧
    (isFileNode srcNode = true → SyncOp.rmtree ∉ ops2) ∧
    (isDirNode srcNode = true → isSymlinkNode dst1 = true → ops2 = []) ∧
    (isDirNode srcNode = true → isSymlinkNode dst1 = false →
      ops2 = [SyncOp.rmtree, SyncOp.copytree]) := by
  unfold sync_static_path at h1 h2
  cases hrel : pyRelativeTo src input_dir with
  | none =>
    rw [hrel] at h1
    exact Except.noConfusion h1
  | some rel =>
    rw [hrel] at h1 h2
    rcases srcNode with _ | node
    · simp only [Except.ok.injEq, Prod.mk.injEq] at h1 h2
      obtain ⟨-, hd1, -⟩ := h1
      obtain ⟨-, hd2, ho2⟩ := h2
      subst hd1
      subst hd2
      subst ho2
      refine ⟨rfl, ?_, ?_, ?_⟩ <;> simp [isFileNode, isDirNode]
    · rcases node with ⟨ino, data⟩ | ⟨dino, tree⟩ | t
      · -- file source
        rcases dst0 with _ | dnode
        · -- destination initially absent: link or copy
          dsimp only at h1
          split at h1
          all_goals
            simp only [Except.ok.injEq, Prod.mk.injEq] at h1
            obtain ⟨-, hd1, -⟩ := h1
            subst hd1
            dsimp only at h2
            split at h2
            all_goals
              simp only [Except.ok.injEq, Prod.mk.injEq] at h2
              obtain ⟨-, hd2, ho2⟩ := h2
              subst hd2
              subst ho2
              refine ⟨rfl, ?_, ?_, ?_⟩ <;>
                simp [isFileNode, isDirNode, isSymlinkNode, fsContent]
        · rcases dnode with ⟨j, ddata⟩ | ⟨j, dtree⟩ | t0
          · -- destination is a file: samefile pass or copy
            dsimp only at h1
            split at h1
            · -- first run was a samefile pass
              rename_i hj
              simp only [Except.ok.injEq, Prod.mk.injEq] at h1
              obtain ⟨-, hd1, -⟩ := h1
              subst hd1
              dsimp only at h2
              split at h2
              · simp only [Except.ok.injEq, Prod.mk.injEq] at h2
                obtain ⟨-, hd2, ho2⟩ := h2
                subst hd2
                subst ho2
                refine ⟨rfl, ?_, ?_, ?_⟩ <;>
                  simp [isFileNode, isDirNode, isSymlinkNode, fsContent]
              · rename_i hj2
                exact absurd hj hj2
            · -- first run overwrote via copy2
              rename_i hj
              simp only [Except.ok.injEq, Prod.mk.injEq] at h1
              obtain ⟨-, hd1, -⟩ := h1
              subst hd1
              dsimp only at h2
              split at h2
              · rename_i hj2
                exact absurd hj2 hj
              · simp only [Except.ok.injEq, Prod.mk.injEq] at h2
                obtain ⟨-, hd2, ho2⟩ := h2
                subst hd2
                subst ho2
                refine ⟨rfl, ?_, ?_, ?_⟩ <;>
                  simp [isFileNode, isDirNode, isSymlinkNode, fsContent]
          · exact Except.noConfusion h1
          · -- destination is a symlink: copy2 writes through it
            simp only [Except.ok.injEq, Prod.mk.injEq] at h1
            obtain ⟨-, hd1, -⟩ := h1
            subst hd1
            simp only [Except.ok.injEq, Prod.mk.injEq] at h2
            obtain ⟨-, hd2, ho2⟩ := h2
            subst hd2
            subst ho2
            refine ⟨rfl, ?_, ?_, ?_⟩ <;>
              simp [isFileNode, isDirNode, isSymlinkNode, fsContent]
      · -- directory source
        rcases dst0 with _ | dnode
        · -- destination initially absent: copytree (hardlink or plain)
          dsimp only at h1
          split at h1
          all_goals
            simp only [Except.ok.injEq, Prod.mk.injEq] at h1
            obtain ⟨-, hd1, -⟩ := h1
            subst hd1
            simp only [Except.ok.injEq, Prod.mk.injEq] at h2
            obtain ⟨-, hd2, ho2⟩ := h2
            subst hd2
            subst ho2
            refine ⟨rfl, ?_, ?_, ?_⟩ <;>
              simp [isFileNode, isDirNode, isSymlinkNode, fsContent]
        · rcases dnode with ⟨j, ddata⟩ | ⟨j, dtree⟩ | t0
          · exact Except.noConfusion h1
          · -- destination is a real directory: rmtree + recopy
            simp only [Except.ok.injEq, Prod.mk.injEq] at h1
            obtain ⟨-, hd1, -⟩ := h1
            subst hd1
            simp only [Except.ok.injEq, Prod.mk.injEq] at h2
            obtain ⟨-, hd2, ho2⟩ := h2
            subst hd2
            subst ho2
            refine ⟨rfl, ?_, ?_, ?_⟩ <;>
              simp [isFileNode, isDirNode, isSymlinkNode, fsContent]
          · -- destination is a symlink: treated as synced
            simp only [Except.ok.injEq, Prod.mk.injEq] at h1
            obtain ⟨-, hd1, -⟩ := h1
            subst hd1
            simp only [Except.ok.injEq, Prod.mk.injEq] at h2
            obtain ⟨-, hd2, ho2⟩ := h2
            subst hd2
            subst ho2
            refine ⟨rfl, ?_, ?_, ?_⟩ <;>
              simp [isFileNode, isDirNode, isSymlinkNode, fsContent]
      · -- dangling-symlink source: neither is_file nor is_dir
        simp only [Except.ok.injEq, Prod.mk.injEq] at h1 h2
        obtain ⟨-, hd1, -⟩ := h1
        obtain ⟨-, hd2, ho2⟩ := h2
        subst hd1
        subst hd2
        subst ho2
        refine ⟨rfl, ?_, ?_, ?_⟩ <;> simp [isFileNode, isDirNode]

end Builder

namespace Builder

theorem c6_second_run_behaviour_witness :
    fsContent (some (FsNode.file 1 "x")) = fsContent (some (FsNode.file 1 "x")) ∧
    (isFileNode (some (FsNode.file 1 "x")) = true → SyncOp.rmtree ∉ ([] : List SyncOp)) ∧
    (isDirNode (some (FsNode.file 1 "x")) = true →
      isSymlinkNode (some (FsNode.file 1 "x")) = true → ([] : List SyncOp) = []) ∧
    (isDirNode (some (FsNode.file 1 "x")) = true →
      isSymlinkNode (some (FsNode.file 1 "x")) = false →
      ([] : List SyncOp) = [SyncOp.rmtree, SyncOp.copytree]) :=
  c6_second_run_behaviour (parsePyPath "/in") (parsePyPath "/out") (parsePyPath "/in/a.txt")
    (some (FsNode.file 1 "x")) none (some (FsNode.file 1 "x")) (some (FsNode.file 1 "x"))
    true true 5 6 (parsePyPath "/out/a.txt") (parsePyPath "/out/a.txt")
    [SyncOp.link] [] rfl rfl

/-- C9 counterexample: for a source path outside the input root that is
neither an existing file nor an existing directory, `sync_static_path`
does raise: the destination computation
`CONFIG.output_dir / src.relative_to(CONFIG.input_dir)` raises
`ValueError` before any existence check, so the claim's "raises no
error" does not hold of every such source path. -/
theorem c9_counterexample_outside_root_raises :
    sync_static_path (parsePyPath "/in") (parsePyPath "/out")
      (parsePyPath "/elsewhere/missing") none none true 0
      = Except.error "ValueError" := rfl

/-- C9 (amended): for every source path *under the input root* that is
neither an existing file nor an existing directory, Static Sync
performs no filesystem operation at all, leaves the output node
unchanged, and raises no error. -/
theorem c9_missing_source_is_no_op (input_dir output_dir src rel : PyPath)
    (srcNode dst0 : Option FsNode) (lw : Bool) (i : Nat)
    (hrel : pyRelativeTo src input_dir = some rel)
    (hf : isFileNode srcNode = false) (hd : isDirNode srcNode = false) :
    sync_static_path input_dir output_dir src srcNode dst0 lw i
      = Except.ok (pyJoin output_dir rel, dst0, []) := by
  unfold sync_static_path
  rw [hrel]
  rcases srcNode with _ | node
  · rfl
  · rcases node with ⟨ino, data⟩ | ⟨ino, tree⟩ | t
    · simp [isFileNode] at hf
    · simp [isDirNode] at hd
    · rfl

theorem c9_missing_source_is_no_op_witness :
    sync_static_path (parsePyPath "/in") (parsePyPath "/out") (parsePyPath "/in/gone")
      none (some (FsNode.file 3 "z")) true 0
      = Except.ok (pyJoin (parsePyPath "/out") (PyPath.mk false ["gone"]),
          some (FsNode.file 3 "z"), []) :=
  c9_missing_source_is_no_op (parsePyPath "/in") (parsePyPath "/out")
    (parsePyPath "/in/gone") (PyPath.mk false ["gone"]) none (some (FsNode.file 3 "z"))
    true 0 (by decide) rfl rfl

end Builder
